import Mathlib

/-!
Shallow embedding of `generic/threadshare/src/appsrc.rs` (element `ts-appsrc`):
a bounded, flush-aware producer/consumer bridge.  Pure data (buffers, events,
caps) is modelled concretely; the external collaborators (pipeline clock, the
downstream pad push result, the scheduling context and `Task`) enter as
explicit parameters.  Panics of the Rust code (`unwrap`/`expect`) are modelled
as `Option.none` results.
-/

namespace TsAppSrc

/-- A `gst::Buffer` reduced to what `appsrc.rs` touches: an identity for the
payload plus the two timestamps `push_buffer` may rewrite.  `none` stands for
`gst::CLOCK_TIME_NONE`. -/
structure Buffer where
  bid : Nat
  pts : Option Nat := none
  dts : Option Nat := none
deriving DecidableEq

/-- `gst::Caps`: either `Caps::new_any()` or a concrete list of formats. -/
inductive Caps where
  | anyCaps : Caps
  | formats : List Nat → Caps
deriving DecidableEq

/-- `f.intersect_with_mode(caps, CapsIntersectMode::First)`: intersection
keeping the order of the first operand; ANY is neutral. -/
def Caps.intersect_first : Caps → Caps → Caps
  | Caps.anyCaps, c => c
  | c, Caps.anyCaps => c
  | Caps.formats a, Caps.formats b => Caps.formats (a.filter (fun x => b.contains x))

/-- The `gst::Event`s `appsrc.rs` constructs or forwards. -/
inductive Event where
  | stream_start : Nat → Event
  | caps_event : Caps → Event
  | segment : Event
  | eos : Event
deriving DecidableEq

/-- `enum StreamItem { Buffer(gst::Buffer), Event(gst::Event) }`. -/
inductive StreamItem where
  | buffer : Buffer → StreamItem
  | event : Event → StreamItem
deriving DecidableEq

/-- `struct AppSrcPadHandlerState` with its `Default` impl. -/
structure AppSrcPadHandlerState where
  need_initial_events : Bool := true
  need_segment : Bool := true
  caps : Option Caps := none
deriving DecidableEq

/-- `AppSrcPadHandlerInner`: the futures-mutex guarded state plus the
std-mutex guarded `configured_caps`. -/
structure AppSrcPadHandler where
  state : AppSrcPadHandlerState := {}
  configured_caps : Option Caps := none
deriving DecidableEq

/-- `AppSrcPadHandler::prepare`: store the caps to announce. -/
def AppSrcPadHandler.prepare (h : AppSrcPadHandler) (caps : Option Caps) : AppSrcPadHandler :=
  { h with state := { h.state with caps := caps } }

/-- `AppSrcPadHandler::reset`: both flags re-armed, caps and configured caps
cleared. -/
def AppSrcPadHandler.reset (_h : AppSrcPadHandler) : AppSrcPadHandler :=
  { state := {}, configured_caps := none }

/-- `AppSrcPadHandler::set_need_segment`. -/
def AppSrcPadHandler.set_need_segment (h : AppSrcPadHandler) : AppSrcPadHandler :=
  { h with state := { h.state with need_segment := true } }

/-- `AppSrcPadHandler::push_prelude`: emit stream-start (with a random stream
id, here an input), caps if configured, and a segment, each guarded by its
flag.  Returns the new handler state and the events pushed on the pad. -/
def AppSrcPadHandler.push_prelude (h : AppSrcPadHandler) (stream_id : Nat) :
    AppSrcPadHandler × List Event :=
  let p :=
    if h.state.need_initial_events then
      let q :=
        match h.state.caps with
        | some c =>
          ({ h with configured_caps := some c }, [Event.stream_start stream_id, Event.caps_event c])
        | none => (h, [Event.stream_start stream_id])
      ({ q.1 with state := { q.1.state with need_initial_events := false } }, q.2)
    else (h, ([] : List Event))
  if p.1.state.need_segment then
    ({ p.1 with state := { p.1.state with need_segment := false } }, p.2 ++ [Event.segment])
  else p

/-- What goes downstream on the source pad: an event or a buffer. -/
inductive DownMsg where
  | event : Event → DownMsg
  | buffer : Buffer → DownMsg
deriving DecidableEq

/-- The `gst::FlowError` cases `start_task` distinguishes; every other error
is collapsed by the code into the fatal branch, kept here as `other`. -/
inductive FlowError where
  | eos : FlowError
  | flushing : FlowError
  | other : Nat → FlowError
deriving DecidableEq

/-- `Result<gst::FlowSuccess, gst::FlowError>` of a pad push. -/
inductive FlowRes where
  | ok : FlowRes
  | err : FlowError → FlowRes
deriving DecidableEq

/-- `AppSrcPadHandler::push_item`: run the prelude, then forward the item.
The downstream buffer push is the external `pad_push`; event pushes always
yield `FlowSuccess::Ok` at this layer.  Returns the new handler, everything
pushed downstream in order, and the flow result. -/
def AppSrcPadHandler.push_item (h : AppSrcPadHandler) (stream_id : Nat)
    (item : StreamItem) (pad_push : Buffer → FlowRes) :
    AppSrcPadHandler × List DownMsg × FlowRes :=
  let p := h.push_prelude stream_id
  let msgs := p.2.map DownMsg.event
  match item with
  | StreamItem.buffer b => (p.1, msgs ++ [DownMsg.buffer b], pad_push b)
  | StreamItem.event e => (p.1, msgs ++ [DownMsg.event e], FlowRes.ok)

/-- The `QueryView::Caps` arm of `AppSrcPadHandler::src_query`: the answer
set as the query result, as a function of `configured_caps` and the query's
filter. -/
def src_query_caps (configured_caps : Option Caps) (filter : Option Caps) : Caps :=
  match configured_caps with
  | some caps =>
    match filter with
    | some f => f.intersect_first caps
    | none => caps
  | none =>
    match filter with
    | some f => f
    | none => Caps.anyCaps

/-- The bounded channel behind `mpsc::channel(max_buffers)`.  The futures
crate is an external collaborator; its contract here is the one the element
relies on: fixed slot capacity, non-blocking `try_send` failing when full,
FIFO order. -/
structure Channel where
  capacity : Nat
  items : List StreamItem := []
deriving DecidableEq

/-- `sender.try_send(item)`: enqueue if a slot is free, else fail. -/
def Channel.try_send (ch : Channel) (item : StreamItem) : Bool × Channel :=
  if ch.items.length < ch.capacity then (true, { ch with items := ch.items ++ [item] })
  else (false, ch)

/-- `enum AppSrcState { Paused, RejectBuffers, Started }`. -/
inductive AppSrcState where
  | Paused : AppSrcState
  | RejectBuffers : AppSrcState
  | Started : AppSrcState
deriving DecidableEq

/-- `struct Settings` with its defaults (the context name is reduced to a
number; `caps` is the initial format). -/
structure Settings where
  context : Nat := 0
  context_wait : Nat := 0
  caps : Option Caps := none
  max_buffers : Nat := 10
  do_timestamp : Bool := false
deriving DecidableEq

/-- `struct AppSrc`.  `sender`/`receiver` record whether the respective
channel handle is installed (`Option<...>` being `Some`); `channel` is the
queue both handles refer to, meaningful while they are installed.  The
`Task` and `PadSrc` collaborators carry no data the claims depend on. -/
structure AppSrc where
  src_pad_handler : AppSrcPadHandler := {}
  state : AppSrcState := AppSrcState.RejectBuffers
  sender : Bool := false
  receiver : Bool := false
  channel : Channel := { capacity := 0 }
  settings : Settings := {}
deriving DecidableEq

/-- The timestamping done by `push_buffer` under `do_timestamp`:
`buffer.set_dts(now - base_time); buffer.set_pts(gst::CLOCK_TIME_NONE)`. -/
def stamp (b : Buffer) (now base_time : Nat) : Buffer :=
  { b with dts := some (now - base_time), pts := none }

/-- The tail of `push_buffer`: `self.sender.lock().unwrap().as_mut().unwrap()
.try_send(...)`.  `none` models the panic of the second `unwrap` when no
sender is installed. -/
def AppSrc.send_buffer (el : AppSrc) (b : Buffer) : Option (Bool × AppSrc) :=
  if el.sender then
    let r := el.channel.try_send (StreamItem.buffer b)
    some (r.1, { el with channel := r.2 })
  else none

/-- `AppSrc::push_buffer`.  The pipeline clock (`element.get_clock()`) and
base time are external inputs. -/
def AppSrc.push_buffer (el : AppSrc) (clock : Option Nat) (base_time : Nat)
    (buffer : Buffer) : Option (Bool × AppSrc) :=
  if el.state = AppSrcState.RejectBuffers then some (false, el)
  else if el.settings.do_timestamp then
    match clock with
    | some now => el.send_buffer (stamp buffer now base_time)
    | none => some (false, el)
  else el.send_buffer buffer

/-- `AppSrc::end_of_stream`: no state check; fail only if no sender is
installed or `try_send` fails. -/
def AppSrc.end_of_stream (el : AppSrc) : Bool × AppSrc :=
  if el.sender then
    let r := el.channel.try_send (StreamItem.event Event.eos)
    (r.1, { el with channel := r.2 })
  else (false, el)

/-- `AppSrc::prepare`.  The results of the external calls `Context::acquire`,
`max_buffers.try_into()` and `Task::prepare` are injected as `ctx_ok`,
`cap_ok`, `task_ok`.  Returns the caller-visible result together with the
element state after the call (mutations before an early return persist). -/
def AppSrc.prepare (el : AppSrc) (ctx_ok cap_ok task_ok : Bool) :
    Except String Unit × AppSrc :=
  if ctx_ok then
    if cap_ok then
      let el' : AppSrc := { el with
        sender := true
        receiver := true
        channel := { capacity := el.settings.max_buffers, items := [] } }
      if task_ok then
        (Except.ok (), { el' with src_pad_handler := el'.src_pad_handler.prepare el'.settings.caps })
      else (Except.error "Error preparing Task", el')
    else (Except.error "Invalid max-buffers", el)
  else (Except.error "Failed to acquire Context", el)

/-- `AppSrc::unprepare`: drop both channel handles. -/
def AppSrc.unprepare (el : AppSrc) : AppSrc :=
  { el with sender := false, receiver := false }

/-- `AppSrc::flush`: stop the task, purge the queue, re-arm the segment.
`none` models the panics: the `unwrap` of an absent receiver, and the
`Ok(None)` arm of the purge loop when the sender has been dropped. -/
def AppSrc.flush (el : AppSrc) : Option AppSrc :=
  if el.receiver then
    if el.sender then
      some { el with
        channel := { el.channel with items := [] }
        src_pad_handler := el.src_pad_handler.set_need_segment }
    else none
  else none

/-- `AppSrc::stop`: flush, reset the handler, reject buffers. -/
def AppSrc.stop (el : AppSrc) : Option AppSrc :=
  el.flush.map fun e =>
    { e with src_pad_handler := e.src_pad_handler.reset, state := AppSrcState.RejectBuffers }

/-- `AppSrc::start_task`: schedules the consumer loop; `none` models the
`expect("No receiver")` panic. -/
def AppSrc.start_task (el : AppSrc) : Option AppSrc :=
  if el.receiver then some el else none

/-- `AppSrc::start`: no-op when already started, else schedule the task and
mark started. -/
def AppSrc.start (el : AppSrc) : Option AppSrc :=
  if el.state = AppSrcState.Started then some el
  else el.start_task.map fun e => { e with state := AppSrcState.Started }

/-- `AppSrc::flush_stop`: no-op when already started, else flush, restart
the task and mark started. -/
def AppSrc.flush_stop (el : AppSrc) : Option AppSrc :=
  if el.state = AppSrcState.Started then some el
  else do
    let e ← el.flush
    let e ← e.start_task
    pure { e with state := AppSrcState.Started }

/-- `AppSrc::flush_start`: cancel the task and reject buffers. -/
def AppSrc.flush_start (el : AppSrc) : AppSrc :=
  { el with state := AppSrcState.RejectBuffers }

/-- `AppSrc::pause`: pause the task, mark paused. -/
def AppSrc.pause (el : AppSrc) : AppSrc :=
  { el with state := AppSrcState.Paused }

/-- One activation of the consumer loop future in `AppSrc::start_task`:
receive (`received`, `none` meaning the channel reported closed), push the
item via the handler, and map the flow result to the loop decision.
`cont` is the `glib::Continue` value, `downstream` what was pushed on the
pad during the activation, `fatal_error` whether `gst_element_error!` was
raised. -/
structure IterOut where
  cont : Bool
  downstream : List DownMsg
  fatal_error : Bool
  handler : AppSrcPadHandler
deriving DecidableEq

/-- The body of the `Task` future of `AppSrc::start_task`. -/
def task_iteration (h : AppSrcPadHandler) (stream_id : Nat)
    (received : Option StreamItem) (pad_push : Buffer → FlowRes) : IterOut :=
  match received with
  | none => { cont := false, downstream := [], fatal_error := false, handler := h }
  | some item =>
    let p := h.push_item stream_id item pad_push
    match p.2.2 with
    | FlowRes.ok =>
      { cont := true, downstream := p.2.1, fatal_error := false, handler := p.1 }
    | FlowRes.err FlowError.eos =>
      { cont := false, downstream := p.2.1 ++ [DownMsg.event Event.eos],
        fatal_error := false, handler := p.1 }
    | FlowRes.err FlowError.flushing =>
      { cont := false, downstream := p.2.1, fatal_error := false, handler := p.1 }
    | FlowRes.err (FlowError.other _) =>
      { cont := false, downstream := p.2.1, fatal_error := true, handler := p.1 }

/-- The consumer draining a list of queued items while downstream keeps
succeeding: iterated `push_item`, collecting everything pushed downstream. -/
def drain (stream_id : Nat) :
    AppSrcPadHandler → List StreamItem → AppSrcPadHandler × List DownMsg
  | h, [] => (h, [])
  | h, item :: rest =>
    let p := h.push_item stream_id item (fun _ => FlowRes.ok)
    let q := drain stream_id p.1 rest
    (q.1, p.2.1 ++ q.2)

/-! ## Theorems -/

/-- C6: within one session (no flush or reset in between), a second run of
`push_prelude` emits no events and leaves the handler unchanged:
`push_prelude` composed with itself equals `push_prelude`. -/
theorem C6_prelude_idempotent (h : AppSrcPadHandler) (sid1 sid2 : Nat) :
    ((h.push_prelude sid1).1.push_prelude sid2) = ((h.push_prelude sid1).1, []) := by
  cases hmk : h with
  | mk st cc =>
    cases hst : st with
    | mk nie ns caps =>
      cases nie <;> cases ns <;> cases caps <;>
        simp [AppSrcPadHandler.push_prelude]

/-- The caps-query answer as the amended claim words it: negotiated format
intersected with the filter, the negotiated format alone without a filter;
with nothing negotiated, the filter itself when one is supplied, else ANY. -/
def caps_answer_amended (configured filter : Option Caps) : Caps :=
  match configured, filter with
  | some caps, some f => f.intersect_first caps
  | some caps, none => caps
  | none, some f => f
  | none, none => Caps.anyCaps

/-- C8 counterexample: with nothing negotiated and a non-ANY filter supplied,
the code answers with the filter, not with "any format" as the claim states. -/
theorem C8_counterexample :
    src_query_caps none (some (Caps.formats [3])) = Caps.formats [3] ∧
    Caps.formats [3] ≠ Caps.anyCaps := by
  exact ⟨rfl, by decide⟩

/-- C8 amended: the query answer is the negotiated format intersected with
the filter (or the negotiated format alone); when nothing is negotiated it is
the caller's filter when one is given, and "any format" only when no filter
is given. -/
theorem C8_caps_query (configured filter : Option Caps) :
    src_query_caps configured filter = caps_answer_amended configured filter := by
  cases configured <;> cases filter <;> rfl

/-- C3: one activation of the consumer loop: channel closed → stop, nothing
forwarded, no error; forwarding ok → re-arm; downstream EOS → push a
synthesized EOS event and stop without error; downstream flushing → stop
silently; any other downstream failure → fatal stream error and stop. -/
theorem C3_result_handling (h : AppSrcPadHandler) (sid : Nat)
    (pad_push : Buffer → FlowRes) :
    (task_iteration h sid none pad_push =
      { cont := false, downstream := [], fatal_error := false, handler := h }) ∧
    ∀ item : StreamItem,
      (let p := h.push_item sid item pad_push
      (p.2.2 = FlowRes.ok →
        task_iteration h sid (some item) pad_push =
          { cont := true, downstream := p.2.1, fatal_error := false, handler := p.1 }) ∧
      (p.2.2 = FlowRes.err FlowError.eos →
        task_iteration h sid (some item) pad_push =
          { cont := false, downstream := p.2.1 ++ [DownMsg.event Event.eos],
            fatal_error := false, handler := p.1 }) ∧
      (p.2.2 = FlowRes.err FlowError.flushing →
        task_iteration h sid (some item) pad_push =
          { cont := false, downstream := p.2.1, fatal_error := false, handler := p.1 }) ∧
      (∀ n : Nat, p.2.2 = FlowRes.err (FlowError.other n) →
        task_iteration h sid (some item) pad_push =
          { cont := false, downstream := p.2.1, fatal_error := true, handler := p.1 })) := by
  refine ⟨rfl, fun item => ⟨?_, ?_, ?_, ?_⟩⟩
  · intro hres; simp only [task_iteration]; rw [hres]
  · intro hres; simp only [task_iteration]; rw [hres]
  · intro hres; simp only [task_iteration]; rw [hres]
  · intro n hres; simp only [task_iteration]; rw [hres]

/-- C3 witness: downstream reporting EOS on a concrete buffer makes the loop
push the prelude, the EOS event, and stop without error. -/
theorem C3_result_handling_witness :
    (AppSrcPadHandler.push_item {} 0 (StreamItem.buffer ⟨1, none, none⟩)
        (fun _ => FlowRes.err FlowError.eos)).2.2 = FlowRes.err FlowError.eos ∧
    task_iteration {} 0 (some (StreamItem.buffer ⟨1, none, none⟩))
        (fun _ => FlowRes.err FlowError.eos) =
      { cont := false
        downstream := [DownMsg.event (Event.stream_start 0), DownMsg.event Event.segment,
          DownMsg.buffer ⟨1, none, none⟩, DownMsg.event Event.eos]
        fatal_error := false
        handler := {
          state := { need_initial_events := false, need_segment := false, caps := none }
          configured_caps := none } } :=
  ⟨rfl, by
    have := (C3_result_handling {} 0 (fun _ => FlowRes.err FlowError.eos)).2
      (StreamItem.buffer ⟨1, none, none⟩)
    exact this.2.1 rfl⟩

/-- C4 counterexample: when `Task::prepare` fails, `prepare` reports the
error but the sender and receiver handles have already been installed,
contradicting "no sender or receiver channel handle is installed". -/
theorem C4_counterexample :
    ((({} : AppSrc).prepare true true false).1 = Except.error "Error preparing Task" ∧
      (({} : AppSrc).prepare true true false).2.sender = true ∧
      (({} : AppSrc).prepare true true false).2.receiver = true) := by
  refine ⟨rfl, rfl, rfl⟩

/-- C4 amended: when context acquisition or the capacity conversion fails,
the error is reported and the element is completely unchanged; when task
preparation fails the error is reported, but the channel handles (sender and
receiver, with a fresh queue of the configured capacity) have already been
installed, and nothing else is changed. -/
theorem C4_prepare_failure (el : AppSrc) (c k t : Bool) :
    (c = false → el.prepare c k t = (Except.error "Failed to acquire Context", el)) ∧
    (c = true → k = false → el.prepare c k t = (Except.error "Invalid max-buffers", el)) ∧
    (c = true → k = true → t = false →
      el.prepare c k t = (Except.error "Error preparing Task",
        { el with
            sender := true
            receiver := true
            channel := { capacity := el.settings.max_buffers, items := [] } })) := by
  refine ⟨fun hc => ?_, fun hc hk => ?_, fun hc hk ht => ?_⟩ <;>
    subst hc <;> first
      | rfl
      | (subst hk; rfl)
      | (subst hk; subst ht; rfl)

/-- C4 witness: the three failure shapes at a concrete element. -/
theorem C4_prepare_failure_witness :
    (({} : AppSrc).prepare false true true = (Except.error "Failed to acquire Context", {}) ∧
      ({} : AppSrc).prepare true false true = (Except.error "Invalid max-buffers", {}) ∧
      ({} : AppSrc).prepare true true false = (Except.error "Error preparing Task",
        { ({} : AppSrc) with
            sender := true
            receiver := true
            channel := { capacity := (10 : Nat), items := [] } })) := by
  have h := C4_prepare_failure ({} : AppSrc)
  exact ⟨(h false true true).1 rfl, (h true false true).2.1 rfl rfl,
    (h true true false).2.2 rfl rfl rfl⟩

/-- A prepared element (capacity 2, optional initial caps) brought to
Started: `prepare` succeeds, then `start`. -/
def prepared_started (copt : Option Caps) : AppSrc :=
  ((({ settings := { max_buffers := 2, caps := copt } } : AppSrc).prepare
    true true true).2.start).getD {}

/-- A prepared, started element of capacity 2 on which `flush_start` has run:
state is RejectBuffers, but the sender handle is still installed. -/
def flushing_el : AppSrc := (prepared_started none).flush_start

/-- C1 counterexample: after `flush_start` (and before any `flush_stop`),
`end_of_stream` still succeeds and enqueues the EOS item — it returns `true`,
not `false` as the claim states, because `end_of_stream` never consults the
element state. -/
theorem C1_counterexample :
    flushing_el.state = AppSrcState.RejectBuffers ∧
    flushing_el.end_of_stream.1 = true ∧
    flushing_el.end_of_stream.2.channel.items = [StreamItem.event Event.eos] := by
  refine ⟨rfl, rfl, rfl⟩

/-- C1 amended: between `flush_start` and `flush_stop` (state RejectBuffers)
every `push_buffer` returns false with the element unchanged; `end_of_stream`
is not gated on the state: with the sender installed and a free slot it still
enqueues EOS and returns true, and it returns false exactly when no sender is
installed or the channel is full. -/
theorem C1_flush_rejects (el : AppSrc) (clock : Option Nat) (bt : Nat) (buf : Buffer)
    (hst : el.state = AppSrcState.RejectBuffers) :
    el.push_buffer clock bt buf = some (false, el) ∧
    (el.sender = true → el.channel.items.length < el.channel.capacity →
      el.end_of_stream.1 = true) ∧
    (el.sender = false → el.end_of_stream.1 = false) ∧
    (el.sender = true → ¬ el.channel.items.length < el.channel.capacity →
      el.end_of_stream.1 = false) := by
  refine ⟨?_, ?_, ?_, ?_⟩
  · simp [AppSrc.push_buffer, hst]
  · intro hs hroom
    simp [AppSrc.end_of_stream, hs, Channel.try_send, if_pos hroom]
  · intro hs
    simp [AppSrc.end_of_stream, hs]
  · intro hs hfull
    simp [AppSrc.end_of_stream, hs, Channel.try_send, if_neg hfull]

/-- C1 witness: the amended behaviour at the concrete flushed element. -/
theorem C1_flush_rejects_witness :
    flushing_el.push_buffer none 0 ⟨1, none, none⟩ = some (false, flushing_el) ∧
    flushing_el.end_of_stream.1 = true := by
  have h := C1_flush_rejects flushing_el none 0 ⟨1, none, none⟩ rfl
  exact ⟨h.1, h.2.1 rfl (by decide)⟩

/-- C7: with timestamp-on-arrival enabled and the element accepting buffers,
`push_buffer` with no clock bound returns false and leaves the element (and
channel) untouched; with a clock bound, the item offered to the channel is
the buffer stamped with clock time minus base time. -/
theorem C7_do_timestamp (el : AppSrc) (bt : Nat) (buf : Buffer)
    (hdt : el.settings.do_timestamp = true)
    (hst : ¬ el.state = AppSrcState.RejectBuffers) :
    el.push_buffer none bt buf = some (false, el) ∧
    (∀ now : Nat, el.sender = true →
      el.push_buffer (some now) bt buf =
        some ((el.channel.try_send (StreamItem.buffer (stamp buf now bt))).1,
          { el with channel := (el.channel.try_send (StreamItem.buffer (stamp buf now bt))).2 })) := by
  constructor
  · simp [AppSrc.push_buffer, hst, hdt]
  · intro now hs
    simp [AppSrc.push_buffer, hst, hdt, AppSrc.send_buffer, hs]

/-- C7 witness: concrete started element with do-timestamp on. -/
theorem C7_do_timestamp_witness :
    ({ prepared_started none with
        settings := { max_buffers := 2, do_timestamp := true } } : AppSrc).push_buffer
      none 0 ⟨1, none, none⟩ =
      some (false, { prepared_started none with
        settings := { max_buffers := 2, do_timestamp := true } }) ∧
    ({ prepared_started none with
        settings := { max_buffers := 2, do_timestamp := true } } : AppSrc).push_buffer
      (some 7) 2 ⟨1, some 5, none⟩ =
      some (true, { prepared_started none with
        settings := { max_buffers := 2, do_timestamp := true }
        channel := { capacity := 2, items := [StreamItem.buffer ⟨1, none, some 5⟩] } }) := by
  have h := C7_do_timestamp
    ({ prepared_started none with
        settings := { max_buffers := 2, do_timestamp := true } } : AppSrc)
    2 ⟨1, some 5, none⟩ rfl (by decide)
  have h0 := C7_do_timestamp
    ({ prepared_started none with
        settings := { max_buffers := 2, do_timestamp := true } } : AppSrc)
    0 ⟨1, none, none⟩ rfl (by decide)
  exact ⟨h0.1, h.2 7 rfl⟩

/-- C10: when do-timestamp is enabled and a clock is bound, the enqueued
buffer carries DTS = clock time minus base time and its PTS is cleared to
none (the original presentation timestamp is discarded); `end_of_stream`
enqueues exactly the bare EOS event item, which carries no timestamps, on
any element with a sender installed. -/
theorem C10_stamping (el : AppSrc) (now bt : Nat) (buf : Buffer)
    (hdt : el.settings.do_timestamp = true)
    (hst : ¬ el.state = AppSrcState.RejectBuffers)
    (hs : el.sender = true)
    (hroom : el.channel.items.length < el.channel.capacity) :
    (∃ b : Buffer,
      el.push_buffer (some now) bt buf =
        some (true, { el with
          channel := { el.channel with items := el.channel.items ++ [StreamItem.buffer b] } }) ∧
      b.dts = some (now - bt) ∧ b.pts = none ∧ b.bid = buf.bid) ∧
    (∀ e2 : AppSrc, e2.sender = true →
      e2.end_of_stream =
        ((e2.channel.try_send (StreamItem.event Event.eos)).1,
          { e2 with channel := (e2.channel.try_send (StreamItem.event Event.eos)).2 })) := by
  constructor
  · refine ⟨stamp buf now bt, ?_, rfl, rfl, rfl⟩
    simp [AppSrc.push_buffer, hst, hdt, AppSrc.send_buffer, hs, Channel.try_send, if_pos hroom]
  · intro e2 hs2
    simp [AppSrc.end_of_stream, hs2]

/-- C10 witness: concrete stamping run and concrete EOS enqueue. -/
theorem C10_stamping_witness :
    (∃ b : Buffer,
      ({ prepared_started none with
          settings := { max_buffers := 2, do_timestamp := true } } : AppSrc).push_buffer
        (some 9) 4 ⟨1, some 3, some 8⟩ =
        some (true, { ({ prepared_started none with
            settings := { max_buffers := 2, do_timestamp := true } } : AppSrc) with
          channel := { capacity := 2, items := [StreamItem.buffer b] } }) ∧
      b.dts = some 5 ∧ b.pts = none ∧ b.bid = 1) ∧
    (prepared_started none).end_of_stream =
      (true, { prepared_started none with
        channel := { capacity := 2, items := [StreamItem.event Event.eos] } }) := by
  have h := C10_stamping
    ({ prepared_started none with
        settings := { max_buffers := 2, do_timestamp := true } } : AppSrc)
    9 4 ⟨1, some 3, some 8⟩ rfl (by decide) rfl (by decide)
  constructor
  · obtain ⟨b, hb, hdts, hpts, hbid⟩ := h.1
    exact ⟨b, hb, hdts, hpts, hbid⟩
  · have := h.2 (prepared_started none) rfl
    simpa [Channel.try_send] using this

/-- C5: on a prepared element whose prelude has already run (so a session is
in progress), `flush_stop` purges the queue, restarts in Started, keeps the
negotiated format (both the handler's stored caps and `configured_caps`), and
the next item pushed is preceded by a fresh segment event but by no second
stream-start; `flush_stop` is a no-op when the state is already Started. -/
theorem C5_flush_stop (el : AppSrc) (x : Buffer) (sid : Nat)
    (hs : el.sender = true) (hr : el.receiver = true)
    (hst : ¬ el.state = AppSrcState.Started)
    (hie : el.src_pad_handler.state.need_initial_events = false) :
    (∃ el', el.flush_stop = some el' ∧
      el'.state = AppSrcState.Started ∧
      el'.channel.items = [] ∧
      el'.src_pad_handler.configured_caps = el.src_pad_handler.configured_caps ∧
      el'.src_pad_handler.state.caps = el.src_pad_handler.state.caps ∧
      (el'.src_pad_handler.push_item sid (StreamItem.buffer x) (fun _ => FlowRes.ok)).2.1 =
        [DownMsg.event Event.segment, DownMsg.buffer x]) ∧
    (∀ e2 : AppSrc, e2.state = AppSrcState.Started → e2.flush_stop = some e2) := by
  constructor
  · refine ⟨{ el with
        channel := { el.channel with items := [] }
        src_pad_handler := el.src_pad_handler.set_need_segment
        state := AppSrcState.Started }, ?_, rfl, rfl, rfl, rfl, ?_⟩
    · simp [AppSrc.flush_stop, hst, AppSrc.flush, hs, hr, AppSrc.start_task,
        AppSrcPadHandler.set_need_segment]
    · simp [AppSrcPadHandler.push_item, AppSrcPadHandler.push_prelude,
        AppSrcPadHandler.set_need_segment, hie]
  · intro e2 hst2
    simp [AppSrc.flush_stop, hst2]

/-- C5 witness: a concrete mid-session element flushed and restarted. -/
theorem C5_flush_stop_witness :
    (∃ el', AppSrc.flush_stop
        { src_pad_handler := {
            state :=
              { need_initial_events := false
                need_segment := false
                caps := some (Caps.formats [4]) }
            configured_caps := some (Caps.formats [4]) }
          state := AppSrcState.RejectBuffers
          sender := true
          receiver := true
          channel := { capacity := 2, items := [StreamItem.buffer ⟨9, none, none⟩] }
          settings := {} } = some el' ∧
      el'.state = AppSrcState.Started ∧
      el'.channel.items = [] ∧
      el'.src_pad_handler.configured_caps = some (Caps.formats [4]) ∧
      el'.src_pad_handler.state.caps = some (Caps.formats [4]) ∧
      (el'.src_pad_handler.push_item 0 (StreamItem.buffer ⟨1, none, none⟩)
          (fun _ => FlowRes.ok)).2.1 =
        [DownMsg.event Event.segment, DownMsg.buffer ⟨1, none, none⟩]) := by
  have h := C5_flush_stop
    { src_pad_handler := {
        state :=
          { need_initial_events := false
            need_segment := false
            caps := some (Caps.formats [4]) }
        configured_caps := some (Caps.formats [4]) }
      state := AppSrcState.RejectBuffers
      sender := true
      receiver := true
      channel := { capacity := 2, items := [StreamItem.buffer ⟨9, none, none⟩] }
      settings := {} }
    ⟨1, none, none⟩ 0 rfl rfl (by decide) rfl
  exact h.1

/-- C2: with capacity 2 and state Started, submitting A then B returns true
twice; a third submission C returns false and leaves the element — in
particular the queued items A, B — exactly as it was; draining then yields
start-control, format-control when an initial format is configured, segment,
A, B, in that order. -/
theorem C2_capacity_scenario (a b c : Buffer) (copt : Option Caps) (sid : Nat) :
    ∃ el1 el2 : AppSrc,
      (prepared_started copt).push_buffer none 0 a = some (true, el1) ∧
      el1.push_buffer none 0 b = some (true, el2) ∧
      el2.push_buffer none 0 c = some (false, el2) ∧
      el2.channel.items = [StreamItem.buffer a, StreamItem.buffer b] ∧
      (drain sid el2.src_pad_handler el2.channel.items).2 =
        [DownMsg.event (Event.stream_start sid)] ++
          (match copt with
            | some cc => [DownMsg.event (Event.caps_event cc)]
            | none => []) ++
          [DownMsg.event Event.segment, DownMsg.buffer a, DownMsg.buffer b] := by
  refine ⟨{ prepared_started copt with
      channel := { capacity := 2, items := [StreamItem.buffer a] } },
    { prepared_started copt with
      channel := { capacity := 2, items := [StreamItem.buffer a, StreamItem.buffer b] } },
    ?_, ?_, ?_, rfl, ?_⟩ <;>
    cases copt <;>
      simp [prepared_started, AppSrc.prepare, AppSrc.start, AppSrc.start_task,
        AppSrcPadHandler.prepare, AppSrc.push_buffer, AppSrc.send_buffer,
        Channel.try_send, drain, AppSrcPadHandler.push_item, AppSrcPadHandler.push_prelude]

/-- The lifecycle operations that touch element state, as driven by
`change_state` (prepare/start/pause/stop/unprepare) and by serialized pad
events (flush-start/flush-stop). -/
inductive Op where
  | prep : Bool → Bool → Bool → Op
  | start : Op
  | pause : Op
  | stop : Op
  | flushStart : Op
  | flushStop : Op
  | unprep : Op
deriving DecidableEq

/-- Apply one lifecycle operation.  `none` covers both an internal panic and
a call outside the contract under which the operation is invoked: `prepare`
only runs on an unprepared element (NullToReady); start/pause/stop and the
flush events only reach a prepared element (the pad and task exist between
`prepare` and `unprepare`); `unprepare` is only called after `stop`, i.e.
with the state already at RejectBuffers. -/
def applyOp : Op → AppSrc → Option AppSrc
  | Op.prep c k t, el => if el.sender then none else some (el.prepare c k t).2
  | Op.start, el => if el.sender then el.start else none
  | Op.pause, el => if el.sender then some el.pause else none
  | Op.stop, el => if el.sender then el.stop else none
  | Op.flushStart, el => if el.sender then some el.flush_start else none
  | Op.flushStop, el => if el.sender then el.flush_stop else none
  | Op.unprep, el =>
    if el.sender = true ∧ el.state = AppSrcState.RejectBuffers then some el.unprepare else none

/-- The invariant of C9: the two channel handles are installed together, and
whenever the element is Started or Paused the sender is present. -/
def Inv (el : AppSrc) : Prop :=
  el.sender = el.receiver ∧
  ((el.state = AppSrcState.Started ∨ el.state = AppSrcState.Paused) → el.sender = true)

instance (el : AppSrc) : Decidable (Inv el) := by
  unfold Inv; infer_instance

/-- C9: the invariant "Started or Paused implies the sender handle is
present" holds initially and is preserved by every lifecycle operation
applied under its calling contract; under the invariant, `push_buffer`
reaches no panic (`none`): in any state other than RejectBuffers the
unconditional sender unwrap succeeds. -/
theorem C9_sender_invariant :
    Inv ({} : AppSrc) ∧
    (∀ (op : Op) (el el' : AppSrc), Inv el → applyOp op el = some el' → Inv el') ∧
    (∀ (el : AppSrc) (clock : Option Nat) (bt : Nat) (buf : Buffer),
      Inv el → (el.push_buffer clock bt buf).isSome) := by
  refine ⟨⟨rfl, by intro h; cases h <;> simp_all⟩, ?_, ?_⟩
  · rintro op el el' ⟨hsr, hinv⟩ happ
    cases op with
    | prep c k t =>
      simp only [applyOp] at happ
      by_cases hs : el.sender = true
      · simp [hs] at happ
      · simp only [Bool.not_eq_true] at hs
        simp [hs] at happ
        cases c <;> cases k <;> cases t <;>
          simp [AppSrc.prepare, AppSrcPadHandler.prepare] at happ <;>
          subst happ <;>
          first
            | exact ⟨hsr, hinv⟩
            | exact ⟨rfl, fun _ => rfl⟩
    | start =>
      simp only [applyOp] at happ
      by_cases hs : el.sender = true
      · rw [if_pos hs] at happ
        rw [AppSrc.start] at happ
        by_cases hst : el.state = AppSrcState.Started
        · rw [if_pos hst] at happ
          cases happ
          exact ⟨hsr, hinv⟩
        · rw [if_neg hst] at happ
          rw [AppSrc.start_task, ← hsr, if_pos hs] at happ
          simp only [Option.map_some'] at happ
          cases happ
          exact ⟨hsr, fun _ => hs⟩
      · simp [hs] at happ
    | pause =>
      simp only [applyOp] at happ
      by_cases hs : el.sender = true
      · rw [if_pos hs] at happ
        cases happ
        exact ⟨hsr, fun _ => hs⟩
      · simp [hs] at happ
    | stop =>
      simp only [applyOp] at happ
      by_cases hs : el.sender = true
      · rw [if_pos hs] at happ
        rw [AppSrc.stop, AppSrc.flush, ← hsr, if_pos hs, if_pos hs] at happ
        simp only [Option.map_some'] at happ
        cases happ
        exact ⟨rfl, by intro h; rcases h with h | h <;> cases h⟩
      · simp [hs] at happ
    | flushStart =>
      simp only [applyOp] at happ
      by_cases hs : el.sender = true
      · rw [if_pos hs] at happ
        cases happ
        exact ⟨hsr, by intro h; rcases h with h | h <;> cases h⟩
      · simp [hs] at happ
    | flushStop =>
      simp only [applyOp] at happ
      by_cases hs : el.sender = true
      · rw [if_pos hs] at happ
        rw [AppSrc.flush_stop] at happ
        by_cases hst : el.state = AppSrcState.Started
        · rw [if_pos hst] at happ
          cases happ
          exact ⟨hsr, hinv⟩
        · rw [if_neg hst] at happ
          rw [AppSrc.flush, ← hsr, if_pos hs, if_pos hs] at happ
          simp only [Option.bind_eq_bind, Option.some_bind, AppSrc.start_task] at happ
          rw [if_pos hs] at happ
          cases happ
          exact ⟨rfl, fun _ => hs⟩
      · simp [hs] at happ
    | unprep =>
      simp only [applyOp] at happ
      by_cases hpre : el.sender = true ∧ el.state = AppSrcState.RejectBuffers
      · rw [if_pos hpre] at happ
        cases happ
        refine ⟨rfl, ?_⟩
        intro h
        rcases h with h | h <;> rw [AppSrc.unprepare] at h <;>
          simp only at h <;> rw [hpre.2] at h <;> cases h
      · simp [hpre] at happ
  · rintro el clock bt buf ⟨hsr, hinv⟩
    rw [AppSrc.push_buffer.eq_def]
    by_cases hst : el.state = AppSrcState.RejectBuffers
    · rw [if_pos hst]; exact rfl
    · rw [if_neg hst]
      have hs : el.sender = true := by
        apply hinv
        cases h : el.state with
        | Paused => exact Or.inr rfl
        | RejectBuffers => exact absurd h hst
        | Started => exact Or.inl rfl
      by_cases hdt : el.settings.do_timestamp = true
      · rw [if_pos hdt]
        cases clock with
        | none => exact rfl
        | some now =>
          show (el.send_buffer (stamp buf now bt)).isSome = true
          simp [AppSrc.send_buffer, hs]
      · rw [if_neg hdt]
        simp [AppSrc.send_buffer, hs]

/-- C9 witness: the invariant carried through a concrete prepare, and a
panic-free `push_buffer` on a concrete started element. -/
theorem C9_sender_invariant_witness :
    Inv ((({} : AppSrc).prepare true true true).2) ∧
    (AppSrc.push_buffer (prepared_started none) none 0 ⟨1, none, none⟩).isSome := by
  constructor
  · exact C9_sender_invariant.2.1 (Op.prep true true true) {}
      ((({} : AppSrc).prepare true true true).2) (by decide) rfl
  · exact C9_sender_invariant.2.2 (prepared_started none) none 0 ⟨1, none, none⟩ (by decide)

end TsAppSrc
